import Mathlib

/-!
# Shallow embedding of the rmw_zenoh data-plane layer

This file embeds the entity-state operations of
`src/rmw_zenoh_cpp/src/detail/rmw_data_types.cpp` and the event entry
points of `src/rmw_zenoh_cpp/src/rmw_event.cpp` as pure Lean functions,
and proves the queue / map / callback-registry / sequence-number
properties stated for them.

Modelling conventions:
- Mutex-guarded member functions act on an explicit state value and
  return the updated state together with their observable effects
  (diagnostics emitted, callback invocations performed, condition
  variables notified).
- Pointers that may be null are `Option` values; a callback pointer is
  an opaque `Nat` identity, a `std::condition_variable *` likewise.
- `std::deque` queues are Lean lists with the front at the head;
  `emplace_back` appends at the tail, `pop_front` takes the head.
- `std::unordered_map<int64_t, ...>` is an association list over `Int`
  keys (insertion only happens when the key is absent, so at most one
  entry per key ever exists and list order is irrelevant to lookups).
- The 64-bit `size_t` sequence counter is a `Nat` reduced mod `2 ^ 64`
  at every increment, which is exactly unsigned overflow behaviour.
-/

/-- Severity of an rcutils logging macro call. `RCUTILS_LOG_DEBUG_NAMED`
emits `LogLevel.debug`, `RCUTILS_LOG_WARN_NAMED` would emit
`LogLevel.warn`, `RCUTILS_LOG_ERROR_NAMED` emits `LogLevel.error`. -/
inductive LogLevel where
  | debug
  | warn
  | error
deriving DecidableEq, Repr

/-- A callback invocation observed by the application: the `user_data`
pointer passed to the callback together with the event count argument.
Embeds a call `callback(user_data, count)` in the source. -/
structure Invocation where
  user_data : Option Nat
  count : Nat
deriving DecidableEq, Repr

/-- State of a subscription (`rmw_subscription_data_t`), restricted to the
fields its member functions in `rmw_data_types.cpp` read or write:
the bounded message queue with its adapted-QoS depth, the new-message
user-callback data (`callback`, `user_data`, `unread_count`), and the
attached wait-set condition variable.  `M` is the queued message type
(`std::unique_ptr<saved_msg_data>` in the source). -/
structure rmw_subscription_data_t (M : Type) where
  message_queue : List M
  depth : Nat
  callback : Option Nat
  user_data : Option Nat
  unread_count : Nat
  condition : Option Nat
deriving DecidableEq, Repr

/-- Observable effects of one subscription operation. -/
structure SubEffects where
  logs : List LogLevel
  invocations : List Invocation
  notified : List Nat
deriving DecidableEq, Repr

/-- Embeds `rmw_subscription_data_t::notify` (rmw_data_types.cpp:70-76): under the
condition mutex, if a condition variable is attached, notify it; the
state is never modified. -/
def rmw_subscription_data_t.notify {M : Type} (s : rmw_subscription_data_t M) :
    rmw_subscription_data_t M × List Nat :=
  match s.condition with
  | some cv => (s, [cv])
  | none => (s, [])

/-- Embeds `rmw_subscription_data_t::attach_condition` (rmw_data_types.cpp:63-67):
store the given condition-variable pointer, replacing any previous one. -/
def rmw_subscription_data_t.attach_condition {M : Type}
    (s : rmw_subscription_data_t M) (condition_variable : Option Nat) :
    rmw_subscription_data_t M :=
  { s with condition := condition_variable }

/-- Embeds `rmw_subscription_data_t::detach_condition` (rmw_data_types.cpp:79-83):
reset the stored condition-variable pointer to null. -/
def rmw_subscription_data_t.detach_condition {M : Type}
    (s : rmw_subscription_data_t M) : rmw_subscription_data_t M :=
  { s with condition := none }

/-- Embeds `rmw_subscription_data_t::message_queue_is_empty`
(rmw_data_types.cpp:86-90). -/
def rmw_subscription_data_t.message_queue_is_empty {M : Type}
    (s : rmw_subscription_data_t M) : Bool :=
  s.message_queue.isEmpty

/-- Embeds `rmw_subscription_data_t::pop_next_message` (rmw_data_types.cpp:93-106):
return null if the queue is empty, otherwise remove and return the
front (oldest) message. -/
def rmw_subscription_data_t.pop_next_message {M : Type}
    (s : rmw_subscription_data_t M) : rmw_subscription_data_t M × Option M :=
  match s.message_queue with
  | [] => (s, none)
  | msg :: rest => ({ s with message_queue := rest }, some msg)

/-- Embeds `rmw_subscription_data_t::add_new_message` (rmw_data_types.cpp:109-147):
if the queue already holds at least `depth` messages, log one
debug-level diagnostic and, if the queue is non-empty, drop the front
(oldest) message; then append the new message at the tail; then invoke
the user callback with count 1 if one is set, else increment
`unread_count`; finally notify the attached condition variable. -/
def rmw_subscription_data_t.add_new_message {M : Type}
    (s : rmw_subscription_data_t M) (msg : M) :
    rmw_subscription_data_t M × SubEffects :=
  let step1 :=
    if s.depth ≤ s.message_queue.length then
      (if s.message_queue.isEmpty then s.message_queue else s.message_queue.tail,
        [LogLevel.debug])
    else
      (s.message_queue, [])
  let queue2 := step1.1 ++ [msg]
  let step2 :=
    match s.callback with
    | some _ => (s.unread_count, [Invocation.mk s.user_data 1])
    | none => (s.unread_count + 1, [])
  let s3 : rmw_subscription_data_t M :=
    { s with message_queue := queue2, unread_count := step2.1 }
  let notified := (s3.notify).2
  (s3, { logs := step1.2, invocations := step2.2, notified := notified })

/-- Embeds `rmw_subscription_data_t::set_on_new_message_callback`
(rmw_data_types.cpp:150-167): with a non-null callback, first flush any
unread backlog as a single invocation carrying the accumulated count and
zero the count, then store the callback and user data; with a null
callback, clear both stored pointers. -/
def rmw_subscription_data_t.set_on_new_message_callback {M : Type}
    (s : rmw_subscription_data_t M) (user_data : Option Nat)
    (callback : Option Nat) :
    rmw_subscription_data_t M × List Invocation :=
  match callback with
  | some cb =>
    if s.unread_count ≠ 0 then
      ({ s with callback := some cb, user_data := user_data, unread_count := 0 },
        [Invocation.mk user_data s.unread_count])
    else
      ({ s with callback := some cb, user_data := user_data }, [])
  | none =>
    ({ s with callback := none, user_data := none }, [])

/-- State of a service (`rmw_service_data_t`), restricted to the fields its
member functions read or write: the query FIFO, the sequence-number to
in-flight-query map, the new-request user-callback data, and the attached
condition variable.  `Q` is the queued query type
(`std::unique_ptr<ZenohQuery>` in the source). -/
structure rmw_service_data_t (Q : Type) where
  query_queue : List Q
  sequence_to_query_map : List (Int × Q)
  callback : Option Nat
  user_data : Option Nat
  unread_count : Nat
  condition : Option Nat
deriving DecidableEq, Repr

/-- Embeds `rmw_service_data_t::query_queue_is_empty` (rmw_data_types.cpp:196-200). -/
def rmw_service_data_t.query_queue_is_empty {Q : Type}
    (s : rmw_service_data_t Q) : Bool :=
  s.query_queue.isEmpty

/-- Embeds `rmw_service_data_t::attach_condition` (rmw_data_types.cpp:203-207). -/
def rmw_service_data_t.attach_condition {Q : Type}
    (s : rmw_service_data_t Q) (condition_variable : Option Nat) :
    rmw_service_data_t Q :=
  { s with condition := condition_variable }

/-- Embeds `rmw_service_data_t::detach_condition` (rmw_data_types.cpp:210-214). -/
def rmw_service_data_t.detach_condition {Q : Type}
    (s : rmw_service_data_t Q) : rmw_service_data_t Q :=
  { s with condition := none }

/-- Embeds `rmw_service_data_t::notify` (rmw_data_types.cpp:231-237). -/
def rmw_service_data_t.notify {Q : Type} (s : rmw_service_data_t Q) :
    rmw_service_data_t Q × List Nat :=
  match s.condition with
  | some cv => (s, [cv])
  | none => (s, [])

/-- Embeds `rmw_service_data_t::pop_next_query` (rmw_data_types.cpp:217-228):
return null if the queue is empty, otherwise remove and return the front
(oldest) query. -/
def rmw_service_data_t.pop_next_query {Q : Type}
    (s : rmw_service_data_t Q) : rmw_service_data_t Q × Option Q :=
  match s.query_queue with
  | [] => (s, none)
  | query :: rest => ({ s with query_queue := rest }, some query)

/-- Embeds `rmw_service_data_t::add_new_query` (rmw_data_types.cpp:240-256):
append the query at the tail of the FIFO (no capacity bound), then invoke
the user callback with count 1 if one is set, else increment
`unread_count`, then notify the attached condition variable. -/
def rmw_service_data_t.add_new_query {Q : Type}
    (s : rmw_service_data_t Q) (query : Q) :
    rmw_service_data_t Q × SubEffects :=
  let queue2 := s.query_queue ++ [query]
  let step2 :=
    match s.callback with
    | some _ => (s.unread_count, [Invocation.mk s.user_data 1])
    | none => (s.unread_count + 1, [])
  let s3 : rmw_service_data_t Q :=
    { s with query_queue := queue2, unread_count := step2.1 }
  let notified := (s3.notify).2
  (s3, { logs := [], invocations := step2.2, notified := notified })

/-- Embeds `rmw_service_data_t::add_to_query_map` (rmw_data_types.cpp:259-270):
if the sequence number is already a key of the map, return false and
leave the map unchanged; otherwise insert the query under that key and
return true. -/
def rmw_service_data_t.add_to_query_map {Q : Type}
    (s : rmw_service_data_t Q) (sequence_number : Int) (query : Q) :
    rmw_service_data_t Q × Bool :=
  match s.sequence_to_query_map.lookup sequence_number with
  | some _ => (s, false)
  | none =>
    ({ s with
        sequence_to_query_map :=
          (sequence_number, query) :: s.sequence_to_query_map }, true)

/-- Embeds `rmw_service_data_t::take_from_query_map` (rmw_data_types.cpp:273-285):
if the sequence number is not a key of the map, return null and leave the
map unchanged; otherwise erase that entry and return the stored query. -/
def rmw_service_data_t.take_from_query_map {Q : Type}
    (s : rmw_service_data_t Q) (sequence_number : Int) :
    rmw_service_data_t Q × Option Q :=
  match s.sequence_to_query_map.lookup sequence_number with
  | none => (s, none)
  | some query =>
    ({ s with
        sequence_to_query_map :=
          s.sequence_to_query_map.eraseP (fun p => p.1 == sequence_number) },
      some query)

/-- Embeds `rmw_service_data_t::set_on_new_request_callback`
(rmw_data_types.cpp:288-305): same logic as the subscription's
`set_on_new_message_callback`. -/
def rmw_service_data_t.set_on_new_request_callback {Q : Type}
    (s : rmw_service_data_t Q) (user_data : Option Nat)
    (callback : Option Nat) :
    rmw_service_data_t Q × List Invocation :=
  match callback with
  | some cb =>
    if s.unread_count ≠ 0 then
      ({ s with callback := some cb, user_data := user_data, unread_count := 0 },
        [Invocation.mk user_data s.unread_count])
    else
      ({ s with callback := some cb, user_data := user_data }, [])
  | none =>
    ({ s with callback := none, user_data := none }, [])

/-- Width of `size_t` on the target platform: the sequence counter is a
64-bit unsigned integer and wraps modulo `2 ^ 64` on overflow. -/
def SIZE_T_MOD : Nat := 2 ^ 64

/-- State of a client (`rmw_client_data_t`), restricted to the fields its
member functions read or write: the reply FIFO, the outgoing-request
sequence counter, the new-response user-callback data, and the attached
condition variable.  `R` is the queued reply type
(`std::unique_ptr<ZenohReply>` in the source). -/
structure rmw_client_data_t (R : Type) where
  reply_queue : List R
  sequence_number : Nat
  callback : Option Nat
  user_data : Option Nat
  unread_count : Nat
  condition : Option Nat
deriving DecidableEq, Repr

/-- Embeds `rmw_client_data_t::notify` (rmw_data_types.cpp:308-314). -/
def rmw_client_data_t.notify {R : Type} (s : rmw_client_data_t R) :
    rmw_client_data_t R × List Nat :=
  match s.condition with
  | some cv => (s, [cv])
  | none => (s, [])

/-- Embeds `rmw_client_data_t::reply_queue_is_empty` (rmw_data_types.cpp:335-340). -/
def rmw_client_data_t.reply_queue_is_empty {R : Type}
    (s : rmw_client_data_t R) : Bool :=
  s.reply_queue.isEmpty

/-- Embeds `rmw_client_data_t::attach_condition` (rmw_data_types.cpp:343-347). -/
def rmw_client_data_t.attach_condition {R : Type}
    (s : rmw_client_data_t R) (condition_variable : Option Nat) :
    rmw_client_data_t R :=
  { s with condition := condition_variable }

/-- Embeds `rmw_client_data_t::detach_condition` (rmw_data_types.cpp:350-354). -/
def rmw_client_data_t.detach_condition {R : Type}
    (s : rmw_client_data_t R) : rmw_client_data_t R :=
  { s with condition := none }

/-- Embeds `rmw_client_data_t::add_new_reply` (rmw_data_types.cpp:317-332):
append the reply at the tail of the FIFO (no capacity bound), then invoke
the user callback with count 1 if one is set, else increment
`unread_count`, then notify the attached condition variable. -/
def rmw_client_data_t.add_new_reply {R : Type}
    (s : rmw_client_data_t R) (reply : R) :
    rmw_client_data_t R × SubEffects :=
  let queue2 := s.reply_queue ++ [reply]
  let step2 :=
    match s.callback with
    | some _ => (s.unread_count, [Invocation.mk s.user_data 1])
    | none => (s.unread_count + 1, [])
  let s3 : rmw_client_data_t R :=
    { s with reply_queue := queue2, unread_count := step2.1 }
  let notified := (s3.notify).2
  (s3, { logs := [], invocations := step2.2, notified := notified })

/-- Embeds `rmw_client_data_t::pop_next_reply` (rmw_data_types.cpp:357-369):
return null if the queue is empty, otherwise remove and return the front
(oldest) reply. -/
def rmw_client_data_t.pop_next_reply {R : Type}
    (s : rmw_client_data_t R) : rmw_client_data_t R × Option R :=
  match s.reply_queue with
  | [] => (s, none)
  | reply :: rest => ({ s with reply_queue := rest }, some reply)

/-- Embeds `rmw_client_data_t::get_next_sequence_number`
(rmw_data_types.cpp:483-487): `return sequence_number++;` under the
sequence-number mutex — return the current counter value and increment
the stored 64-bit counter (wrapping on overflow). -/
def rmw_client_data_t.get_next_sequence_number {R : Type}
    (s : rmw_client_data_t R) : rmw_client_data_t R × Nat :=
  ({ s with sequence_number := (s.sequence_number + 1) % SIZE_T_MOD },
    s.sequence_number)

/-- Embeds `rmw_client_data_t::set_on_new_response_callback`
(rmw_data_types.cpp:372-389): same logic as the subscription's
`set_on_new_message_callback`. -/
def rmw_client_data_t.set_on_new_response_callback {R : Type}
    (s : rmw_client_data_t R) (user_data : Option Nat)
    (callback : Option Nat) :
    rmw_client_data_t R × List Invocation :=
  match callback with
  | some cb =>
    if s.unread_count ≠ 0 then
      ({ s with callback := some cb, user_data := user_data, unread_count := 0 },
        [Invocation.mk user_data s.unread_count])
    else
      ({ s with callback := some cb, user_data := user_data }, [])
  | none =>
    ({ s with callback := none, user_data := none }, [])

/-- A `z_owned_reply_t` transport reply handle: `check` is the value
`z_reply_check` returns on it (handle validity / non-null), `is_ok` the
value `z_reply_is_ok` returns (success vs error reply), `payload` an
opaque identity for its content. -/
structure z_owned_reply_t where
  check : Bool
  is_ok : Bool
  payload : Nat
deriving DecidableEq, Repr

/-- Embeds `z_reply_null()`: the gravestone reply handle; `z_reply_check` is
false on it. -/
def z_reply_null : z_owned_reply_t :=
  { check := false, is_ok := false, payload := 0 }

/-- Embeds `z_reply_check(reply)`: whether the owned reply handle is valid. -/
def z_reply_check (reply : z_owned_reply_t) : Bool :=
  reply.check

/-- Embeds `z_reply_is_ok(reply)`: whether the reply carries a success sample
rather than a transport-level error. -/
def z_reply_is_ok (reply : z_owned_reply_t) : Bool :=
  reply.is_ok

/-- Outcome of one `client_data_handler` invocation: the client state it
leaves behind, the final value of the caller's `*reply` handle, and the
observable effects (error diagnostics, callback invocations, condition
notifications). -/
structure ClientHandlerResult where
  client : Option (rmw_client_data_t z_owned_reply_t)
  reply_handle : z_owned_reply_t
  logs : List LogLevel
  invocations : List Invocation
  notified : List Nat
deriving DecidableEq, Repr

/-- Embeds `client_data_handler` (rmw_data_types.cpp:490-518): the reply-arrived
wire handler. If the user-data pointer is null, log an error and return;
if `z_reply_check` fails (malformed handle), log an error and return; if
`z_reply_is_ok` fails (transport-level error reply), log an error and
return — in all three cases the reply queue is untouched and the
caller's handle is left as it was. Otherwise wrap the reply (ZenohReply
takes the handle's value) and `add_new_reply` it, then overwrite the
caller's `*reply` with `z_reply_null()` to mark ownership transferred
into the queue. -/
def client_data_handler (reply : z_owned_reply_t)
    (data : Option (rmw_client_data_t z_owned_reply_t)) :
    ClientHandlerResult :=
  match data with
  | none =>
    { client := none, reply_handle := reply, logs := [LogLevel.error],
      invocations := [], notified := [] }
  | some client_data =>
    if ¬ z_reply_check reply then
      { client := some client_data, reply_handle := reply,
        logs := [LogLevel.error], invocations := [], notified := [] }
    else if ¬ z_reply_is_ok reply then
      { client := some client_data, reply_handle := reply,
        logs := [LogLevel.error], invocations := [], notified := [] }
    else
      let added := client_data.add_new_reply reply
      { client := some added.1, reply_handle := z_reply_null, logs := [],
        invocations := added.2.invocations, notified := added.2.notified }

/-- Modelled from the spec: the `rmw_zenoh_event_type_t` enum and
`ZENOH_EVENT_ID_MAX` live in `detail/event.hpp`, which is not among the
sources; the spec's known-event range consists of the two QoS-incompatible
event kinds dispatched in `rmw_event.cpp`, so the valid integer codes are
`0` (requested-QoS-incompatible) and `1` (offered-QoS-incompatible) and
the largest valid code is `1`. -/
def ZENOH_EVENT_ID_MAX : Nat := 1

/-- The per-event-kind slice of an entity's `user_callback_data_` member:
`event_callback[]`, `event_data[]` and `event_unread_count[]` indexed by
the integer code of the event kind.  `rmw_publisher_data_t` and
`rmw_subscription_data_t` each hold one of these. -/
structure user_callback_data_t where
  event_callback : Nat → Option Nat
  event_data : Nat → Option Nat
  event_unread_count : Nat → Nat

/-- Embeds `rmw_publisher_data_t::event_set_callback` (rmw_data_types.cpp:37-60)
and the verbatim-identical `rmw_subscription_data_t::event_set_callback`
(rmw_data_types.cpp:170-193): if the event id exceeds
`ZENOH_EVENT_ID_MAX`, report one diagnostic (`RMW_SET_ERROR_MSG...`) and
return without touching any state; otherwise store the callback and user
data for that event kind and, if the callback is non-null and unread
events are pending for that kind, invoke it once with the accumulated
count and zero the count.  Returns the new registry state, the callback
invocations performed, and the number of diagnostics reported. -/
def event_set_callback (s : user_callback_data_t) (event_id : Nat)
    (callback : Option Nat) (user_data : Option Nat) :
    user_callback_data_t × List Invocation × Nat :=
  if ZENOH_EVENT_ID_MAX < event_id then
    (s, [], 1)
  else
    let s1 : user_callback_data_t :=
      { event_callback := fun i => if i = event_id then callback else s.event_callback i,
        event_data := fun i => if i = event_id then user_data else s.event_data i,
        event_unread_count := s.event_unread_count }
    match callback with
    | some _ =>
      if s.event_unread_count event_id ≠ 0 then
        ({ s1 with
            event_unread_count :=
              fun i => if i = event_id then 0 else s.event_unread_count i },
          [Invocation.mk user_data (s.event_unread_count event_id)], 0)
      else
        (s1, [], 0)
    | none => (s1, [], 0)

/-- The RMW-facing event types that can reach `rmw_take_event` and
`rmw_event_set_callback`; `other` stands for every event code this
implementation does not know. -/
inductive rmw_event_type_t where
  | RMW_EVENT_REQUESTED_QOS_INCOMPATIBLE
  | RMW_EVENT_OFFERED_QOS_INCOMPATIBLE
  | other (code : Nat)
deriving DecidableEq, Repr

/-- The zenoh-side event kinds this implementation handles. -/
inductive rmw_zenoh_event_type_t where
  | ZENOH_EVENT_REQUESTED_QOS_INCOMPATIBLE
  | ZENOH_EVENT_OFFERED_QOS_INCOMPATIBLE
deriving DecidableEq, Repr

/-- Modelled from the spec: `event_map` lives in `detail/event.hpp`, which
is not among the sources.  `rmw_event.cpp` dispatches exactly two
supported RMW event types, the requested- and offered-QoS-incompatible
events; every other event type is absent from the map. -/
def event_map : rmw_event_type_t → Option rmw_zenoh_event_type_t
  | .RMW_EVENT_REQUESTED_QOS_INCOMPATIBLE =>
    some .ZENOH_EVENT_REQUESTED_QOS_INCOMPATIBLE
  | .RMW_EVENT_OFFERED_QOS_INCOMPATIBLE =>
    some .ZENOH_EVENT_OFFERED_QOS_INCOMPATIBLE
  | .other _ => none

/-- The subset of `rmw_ret_t` codes `rmw_take_event` can produce. -/
inductive rmw_ret_t where
  | RMW_RET_OK
  | RMW_RET_ERROR
  | RMW_RET_INVALID_ARGUMENT
  | RMW_RET_INCORRECT_RMW_IMPLEMENTATION
deriving DecidableEq, Repr

/-- Opaque identity of this implementation's `rmw_zenoh_identifier`
string pointer; an event handle is from this implementation iff its
`implementation_identifier` equals it. -/
def rmw_zenoh_identifier : Nat := 0

/-- An `rmw_event_t` handle as `rmw_take_event` sees it: the
implementation identifier, the entity-data pointer (null modelled as
`none`; the part of the entity relevant to events is its
`user_callback_data_`, including any recorded unread event counts), and
the event type. -/
structure rmw_event_t where
  implementation_identifier : Nat
  data : Option user_callback_data_t
  event_type : rmw_event_type_t

/-- Embeds `rmw_take_event` (rmw_event.cpp:137-185), for non-null `event_handle`,
`event_info` and `taken` pointers: start with `*taken = false`; reject a
foreign implementation identifier; reject an event type absent from
`event_map`; for the requested-QoS-incompatible kind, reject a null data
pointer, else write `total_count = 0` and `total_count_change = 0` into
the status and set `*taken = true` with `RMW_RET_OK`; for the
offered-QoS-incompatible kind, write the same zeros and succeed (no null
check on the data pointer in this branch).  `event_info` carries the
incoming `(total_count, total_count_change)` field values of the status
struct; the result is `(return code, *taken, total_count,
total_count_change)` after the call. -/
def rmw_take_event (event_handle : rmw_event_t) (event_info : Nat × Nat) :
    rmw_ret_t × Bool × Nat × Nat :=
  if event_handle.implementation_identifier ≠ rmw_zenoh_identifier then
    (.RMW_RET_INCORRECT_RMW_IMPLEMENTATION, false, event_info.1, event_info.2)
  else
    match event_map event_handle.event_type with
    | none => (.RMW_RET_ERROR, false, event_info.1, event_info.2)
    | some .ZENOH_EVENT_REQUESTED_QOS_INCOMPATIBLE =>
      match event_handle.data with
      | none => (.RMW_RET_INVALID_ARGUMENT, false, event_info.1, event_info.2)
      | some _ => (.RMW_RET_OK, true, 0, 0)
    | some .ZENOH_EVENT_OFFERED_QOS_INCOMPATIBLE =>
      (.RMW_RET_OK, true, 0, 0)

/-- Iterated `add_new_message`: the subscription state after pushing each
message of `msgs` in order. -/
def rmw_subscription_data_t.add_new_messages {M : Type}
    (s : rmw_subscription_data_t M) : List M → rmw_subscription_data_t M
  | [] => s
  | msg :: rest => ((s.add_new_message msg).1).add_new_messages rest

/-- The user-callback invocations performed across an iterated
`add_new_message`, in order. -/
def rmw_subscription_data_t.add_new_messages_invocations {M : Type}
    (s : rmw_subscription_data_t M) : List M → List Invocation
  | [] => []
  | msg :: rest =>
    ((s.add_new_message msg).2).invocations ++
      ((s.add_new_message msg).1).add_new_messages_invocations rest

/-- The client state after `n` calls to `get_next_sequence_number`. -/
def rmw_client_data_t.after_calls {R : Type}
    (s : rmw_client_data_t R) : Nat → rmw_client_data_t R
  | 0 => s
  | n + 1 => (((s.after_calls n)).get_next_sequence_number).1

/-- The sequence number returned by call number `n` (0-indexed) of
`get_next_sequence_number` on a client starting in state `s`. -/
def rmw_client_data_t.sequence_number_of_call {R : Type}
    (s : rmw_client_data_t R) (n : Nat) : Nat :=
  (((s.after_calls n)).get_next_sequence_number).2

/-- Modelled from the spec: the field initializers of `rmw_client_data_t`
live in `rmw_data_types.hpp`, which is not among the sources.  Per the
spec the sequence counter "starts at 0 (or 1)" — the testable property
reads the first issued number as 0, so 0 is taken — the queue starts
empty, and no callback or wait-set condition is attached initially. -/
def initial_client : rmw_client_data_t z_owned_reply_t :=
  { reply_queue := [], sequence_number := 0, callback := none,
    user_data := none, unread_count := 0, condition := none }

/-- C5: for each of the three queues (subscription messages, service
queries, client replies), a pop immediately after a push of `x` onto the
empty queue returns exactly `x`, and a pop on the empty queue signals
empty by returning null while leaving the state unchanged — the pop
functions are total, so they never block and never produce an error. -/
theorem pop_follows_push {M Q R : Type}
    (s : rmw_subscription_data_t M) (t : rmw_service_data_t Q)
    (c : rmw_client_data_t R) (msg : M) (query : Q) (reply : R)
    (hs : s.message_queue = []) (ht : t.query_queue = [])
    (hc : c.reply_queue = []) :
    ((((s.add_new_message msg).1)).pop_next_message).2 = some msg ∧
    ((((t.add_new_query query).1)).pop_next_query).2 = some query ∧
    ((((c.add_new_reply reply).1)).pop_next_reply).2 = some reply ∧
    (s.pop_next_message).2 = none ∧ (s.pop_next_message).1 = s ∧
    (t.pop_next_query).2 = none ∧ (t.pop_next_query).1 = t ∧
    (c.pop_next_reply).2 = none ∧ (c.pop_next_reply).1 = c := by
  have hsub : ((((s.add_new_message msg).1)).pop_next_message).2 = some msg := by
    by_cases hd : s.depth = 0 <;>
      simp [rmw_subscription_data_t.add_new_message,
        rmw_subscription_data_t.pop_next_message, hs, hd]
  refine ⟨hsub, ?_, ?_, ?_, ?_, ?_, ?_, ?_, ?_⟩ <;>
    simp [rmw_subscription_data_t.pop_next_message,
      rmw_service_data_t.add_new_query, rmw_service_data_t.pop_next_query,
      rmw_client_data_t.add_new_reply, rmw_client_data_t.pop_next_reply,
      hs, ht, hc]

/-- A concrete empty subscription over `Nat` messages, used for
instantiating universally quantified theorems. -/
def emptySub : rmw_subscription_data_t Nat :=
  { message_queue := [], depth := 1, callback := none, user_data := none,
    unread_count := 0, condition := none }

/-- A concrete empty service over `Nat` queries. -/
def emptySrv : rmw_service_data_t Nat :=
  { query_queue := [], sequence_to_query_map := [], callback := none,
    user_data := none, unread_count := 0, condition := none }

/-- A concrete empty client over `Nat` replies. -/
def emptyCli : rmw_client_data_t Nat :=
  { reply_queue := [], sequence_number := 0, callback := none,
    user_data := none, unread_count := 0, condition := none }

/-- C5 witness: concrete instantiation at empty Nat-queues. -/
theorem pop_follows_push_witness :
    (((emptySub.add_new_message 7).1).pop_next_message).2 = some 7 ∧
    (((emptySrv.add_new_query 8).1).pop_next_query).2 = some 8 ∧
    (((emptyCli.add_new_reply 9).1).pop_next_reply).2 = some 9 :=
  have h := pop_follows_push emptySub emptySrv emptyCli 7 8 9
    (by decide) (by decide) (by decide)
  ⟨h.1, h.2.1, h.2.2.1⟩

/-- C8: the wait-set bridge stores at most one waiter condition —
`attach_condition` replaces any previously attached condition; with no
condition attached (initial state or after `detach_condition`), `notify`
performs no notification and changes no state; after attaching `cv`,
`notify` notifies exactly `cv`.  Shown for the subscription and the
client bridges, whose source code is identical. -/
theorem waitset_bridge_single_waiter {M R : Type}
    (s : rmw_subscription_data_t M) (c : rmw_client_data_t R)
    (cv cv1 cv2 : Nat) (hs : s.condition = none) (hc : c.condition = none) :
    ((s.attach_condition (some cv1)).attach_condition (some cv2)).condition
        = some cv2 ∧
    s.notify = (s, []) ∧
    ((s.detach_condition)).notify = (s.detach_condition, []) ∧
    ((s.attach_condition (some cv))).notify = (s.attach_condition (some cv), [cv]) ∧
    ((c.attach_condition (some cv1)).attach_condition (some cv2)).condition
        = some cv2 ∧
    c.notify = (c, []) ∧
    ((c.detach_condition)).notify = (c.detach_condition, []) ∧
    ((c.attach_condition (some cv))).notify
        = (c.attach_condition (some cv), [cv]) := by
  refine ⟨?_, ?_, ?_, ?_, ?_, ?_, ?_, ?_⟩ <;>
    simp [rmw_subscription_data_t.attach_condition,
      rmw_subscription_data_t.detach_condition,
      rmw_subscription_data_t.notify, rmw_client_data_t.attach_condition,
      rmw_client_data_t.detach_condition, rmw_client_data_t.notify, hs, hc]

/-- C8 witness: concrete instantiation. -/
theorem waitset_bridge_single_waiter_witness :
    ((emptySub.attach_condition (some 4)).attach_condition (some 5)).condition
        = some 5 ∧
    emptySub.notify = (emptySub, []) ∧
    ((emptyCli.attach_condition (some 3))).notify
        = (emptyCli.attach_condition (some 3), [3]) :=
  have h := waitset_bridge_single_waiter emptySub emptyCli 3 4 5
    (by decide) (by decide)
  ⟨h.1, h.2.1, h.2.2.2.2.2.2.2⟩

/-- C7: `event_set_callback` called with an event id above
`ZENOH_EVENT_ID_MAX` reports exactly one diagnostic and is a no-op: the
registry state is returned unmodified (no callback, user-context or
unread-count entry changes) and no callback is invoked. -/
theorem event_set_callback_out_of_range (s : user_callback_data_t)
    (event_id : Nat) (callback user_data : Option Nat)
    (h : ZENOH_EVENT_ID_MAX < event_id) :
    event_set_callback s event_id callback user_data = (s, [], 1) := by
  unfold event_set_callback
  rw [if_pos h]

/-- A concrete event-callback registry with nothing set and no unread
events, used for instantiating universally quantified theorems. -/
def emptyRegistry : user_callback_data_t :=
  { event_callback := fun _ => none, event_data := fun _ => none,
    event_unread_count := fun _ => 0 }

/-- C7 witness: event id 5 is outside the known-event range. -/
theorem event_set_callback_out_of_range_witness :
    event_set_callback emptyRegistry 5 (some 1) (some 2) =
      (emptyRegistry, [], 1) :=
  event_set_callback_out_of_range emptyRegistry 5 (some 1) (some 2) (by decide)

/-- C10: `rmw_take_event` on a valid event handle (this implementation's
identifier, non-null data) whose event type is supported (present in
`event_map`) returns `RMW_RET_OK`, sets `taken` to true, and writes
`total_count = 0` and `total_count_change = 0` regardless of the incoming
status values and of the unread event counts recorded in the entity's
registry. -/
theorem rmw_take_event_zero_counts (h : rmw_event_t) (info : Nat × Nat)
    (hid : h.implementation_identifier = rmw_zenoh_identifier)
    (hsup : (event_map h.event_type).isSome = true)
    (hdata : h.data.isSome = true) :
    rmw_take_event h info = (.RMW_RET_OK, true, 0, 0) := by
  obtain ⟨z, hz⟩ := Option.isSome_iff_exists.mp hsup
  obtain ⟨d, hd⟩ := Option.isSome_iff_exists.mp hdata
  unfold rmw_take_event
  rw [hid]
  simp only [ne_eq, not_true_eq_false, if_false, hz, hd]
  cases z <;> rfl

/-- C10 witness: a requested-QoS-incompatible event handle with nonzero
incoming status fields and an arbitrary registry still yields zeros. -/
theorem rmw_take_event_zero_counts_witness :
    rmw_take_event
      { implementation_identifier := rmw_zenoh_identifier,
        data := some emptyRegistry,
        event_type := .RMW_EVENT_REQUESTED_QOS_INCOMPATIBLE } (5, 6) =
      (.RMW_RET_OK, true, 0, 0) :=
  rmw_take_event_zero_counts
    { implementation_identifier := rmw_zenoh_identifier,
      data := some emptyRegistry,
      event_type := .RMW_EVENT_REQUESTED_QOS_INCOMPATIBLE } (5, 6)
    rfl rfl rfl

/-- C4: the reply wire handler drops any reply that fails `z_reply_check`
(malformed) or `z_reply_is_ok` (not a transport-level success) with one
error diagnostic, leaving the client — in particular its reply queue —
unchanged and the caller's handle untouched; a success reply is appended
at the tail of the reply queue and the caller's reply handle is
overwritten with `z_reply_null()` to mark ownership transferred into the
queue.  The handler is a total function, so it never crashes and never
propagates an error to the transport. -/
theorem client_data_handler_reply_filtering
    (c : rmw_client_data_t z_owned_reply_t) (reply : z_owned_reply_t) :
    client_data_handler reply (some c) =
      (if z_reply_check reply = true ∧ z_reply_is_ok reply = true then
        { client := some ((c.add_new_reply reply).1),
          reply_handle := z_reply_null, logs := [],
          invocations := ((c.add_new_reply reply).2).invocations,
          notified := ((c.add_new_reply reply).2).notified }
      else
        { client := some c, reply_handle := reply,
          logs := [LogLevel.error], invocations := [], notified := [] }) ∧
    ((c.add_new_reply reply).1).reply_queue = c.reply_queue ++ [reply] := by
  constructor
  · unfold client_data_handler
    by_cases h1 : z_reply_check reply = true
    · by_cases h2 : z_reply_is_ok reply = true <;> simp [h1, h2]
    · simp [h1]
  · simp [rmw_client_data_t.add_new_reply]

/-- C2: for any service whose map does not yet bind `seq`,
`add_to_query_map seq q` returns true and stores `q`; a second
`add_to_query_map seq q2` before any take returns false and changes
nothing; `take_from_query_map seq` then removes and returns `q`
(restoring the original state), after which a further take — like a take
for a never-stored `seq` — returns null. -/
theorem query_map_add_take_protocol {Q : Type} (s : rmw_service_data_t Q)
    (seq : Int) (q q2 : Q)
    (h : s.sequence_to_query_map.lookup seq = none) :
    (s.add_to_query_map seq q).2 = true ∧
    (((s.add_to_query_map seq q).1)).sequence_to_query_map.lookup seq
        = some q ∧
    (((s.add_to_query_map seq q).1)).add_to_query_map seq q2
        = ((s.add_to_query_map seq q).1, false) ∧
    ((((s.add_to_query_map seq q).1)).take_from_query_map seq).2 = some q ∧
    ((((s.add_to_query_map seq q).1)).take_from_query_map seq).1 = s ∧
    ((((((s.add_to_query_map seq q).1)).take_from_query_map
        seq).1)).take_from_query_map seq
      = (((((s.add_to_query_map seq q).1)).take_from_query_map seq).1, none) ∧
    (s.take_from_query_map seq).2 = none ∧ (s.take_from_query_map seq).1 = s := by
  have hadd : s.add_to_query_map seq q =
      ({ s with sequence_to_query_map :=
          (seq, q) :: s.sequence_to_query_map }, true) := by
    simp [rmw_service_data_t.add_to_query_map, h]
  have hlook : ((seq, q) :: s.sequence_to_query_map).lookup seq = some q := by
    simp [List.lookup]
  have herase :
      ((seq, q) :: s.sequence_to_query_map).eraseP (fun p => p.1 == seq)
        = s.sequence_to_query_map :=
    List.eraseP_cons_of_pos (by simp)
  have htake :
      ({ s with sequence_to_query_map :=
          (seq, q) :: s.sequence_to_query_map } :
            rmw_service_data_t Q).take_from_query_map seq = (s, some q) := by
    simp [rmw_service_data_t.take_from_query_map, hlook, herase]
  have htake0 : s.take_from_query_map seq = (s, none) := by
    simp [rmw_service_data_t.take_from_query_map, h]
  refine ⟨by rw [hadd], ?_, ?_, ?_, ?_, ?_, ?_, ?_⟩
  · rw [hadd]; exact hlook
  · rw [hadd]
    simp [rmw_service_data_t.add_to_query_map, hlook]
  · rw [hadd, htake]
  · rw [hadd, htake]
  · rw [hadd, htake]; exact htake0
  · rw [htake0]
  · rw [htake0]

/-- C2 witness: concrete instantiation at sequence number 42 on an empty
map. -/
theorem query_map_add_take_protocol_witness :
    ((emptySrv.add_to_query_map 42 1).2 = true) ∧
    ((((emptySrv.add_to_query_map 42 1).1)).take_from_query_map 42).2
        = some 1 :=
  have h := query_map_add_take_protocol emptySrv 42 1 2 (by decide)
  ⟨h.1, h.2.2.2.1⟩

/-- With no callback set, one `add_new_message` performs no callback
invocation, increments the unread count by one, and leaves the callback
registration and user data untouched. -/
theorem add_new_message_no_callback {M : Type} (s : rmw_subscription_data_t M)
    (msg : M) (hcb : s.callback = none) :
    ((s.add_new_message msg).2).invocations = [] ∧
    ((s.add_new_message msg).1).callback = none ∧
    ((s.add_new_message msg).1).user_data = s.user_data ∧
    ((s.add_new_message msg).1).unread_count = s.unread_count + 1 := by
  simp [rmw_subscription_data_t.add_new_message, hcb]

/-- With no callback set, iterated `add_new_message` performs no callback
invocation and accumulates one unread event per pushed message. -/
theorem add_new_messages_no_callback {M : Type} :
    ∀ (msgs : List M) (s : rmw_subscription_data_t M), s.callback = none →
      s.add_new_messages_invocations msgs = [] ∧
      (s.add_new_messages msgs).callback = none ∧
      (s.add_new_messages msgs).user_data = s.user_data ∧
      (s.add_new_messages msgs).unread_count = s.unread_count + msgs.length
  | [], s, hcb => by
    simp [rmw_subscription_data_t.add_new_messages,
      rmw_subscription_data_t.add_new_messages_invocations, hcb]
  | msg :: rest, s, hcb => by
    obtain ⟨h1, h2, h3, h4⟩ := add_new_message_no_callback s msg hcb
    obtain ⟨ih1, ih2, ih3, ih4⟩ :=
      add_new_messages_no_callback rest ((s.add_new_message msg).1) h2
    refine ⟨?_, ?_, ?_, ?_⟩
    · simp [rmw_subscription_data_t.add_new_messages_invocations, h1, ih1]
    · simp [rmw_subscription_data_t.add_new_messages, ih2]
    · simp [rmw_subscription_data_t.add_new_messages, ih3, h3]
    · simp only [rmw_subscription_data_t.add_new_messages, ih4, h4,
        List.length_cons]
      omega

/-- C3: starting with no callback set and a zero unread count, pushing
the non-empty batch `msgs` performs no invocation and leaves the unread
count at `N = msgs.length`; then registering a non-null callback causes
exactly one immediate invocation carrying count `N` and resets the
unread count to 0; one further push while the callback is set causes
exactly one invocation carrying count 1 and leaves the unread count
at 0. -/
theorem callback_backlog_flush {M : Type} (s : rmw_subscription_data_t M)
    (msgs : List M) (m : M) (cb : Nat) (ud : Option Nat)
    (hcb : s.callback = none) (hu : s.unread_count = 0) (hne : msgs ≠ []) :
    s.add_new_messages_invocations msgs = [] ∧
    (s.add_new_messages msgs).unread_count = msgs.length ∧
    ((s.add_new_messages msgs).set_on_new_message_callback ud (some cb)).2
        = [Invocation.mk ud msgs.length] ∧
    (((s.add_new_messages msgs).set_on_new_message_callback ud
        (some cb)).1).unread_count = 0 ∧
    ((((((s.add_new_messages msgs).set_on_new_message_callback ud
        (some cb)).1)).add_new_message m).2).invocations
      = [Invocation.mk ud 1] ∧
    ((((((s.add_new_messages msgs).set_on_new_message_callback ud
        (some cb)).1)).add_new_message m).1).unread_count = 0 := by
  obtain ⟨h1, h2, h3, h4⟩ := add_new_messages_no_callback msgs s hcb
  have hlen : msgs.length ≠ 0 := by
    simpa using hne
  have hu1 : (s.add_new_messages msgs).unread_count = msgs.length := by
    rw [h4, hu, Nat.zero_add]
  have hset : (s.add_new_messages msgs).set_on_new_message_callback ud
      (some cb) =
      ({ message_queue := (s.add_new_messages msgs).message_queue,
          depth := (s.add_new_messages msgs).depth,
          callback := some cb, user_data := ud, unread_count := 0,
          condition := (s.add_new_messages msgs).condition },
        [Invocation.mk ud msgs.length]) := by
    simp [rmw_subscription_data_t.set_on_new_message_callback, hu1, hlen]
  refine ⟨h1, hu1, ?_, ?_, ?_, ?_⟩
  · rw [hset]
  · rw [hset]
  · rw [hset]
    simp [rmw_subscription_data_t.add_new_message]
  · rw [hset]
    simp [rmw_subscription_data_t.add_new_message]

/-- One `add_new_message` appends the new message at the tail, after
dropping the head iff the queue already holds at least `depth` messages
(and is non-empty); the configured depth is never modified. -/
theorem add_new_message_queue_depth {M : Type} (s : rmw_subscription_data_t M)
    (msg : M) :
    ((s.add_new_message msg).1).message_queue =
      (if s.depth ≤ s.message_queue.length then
        (if s.message_queue.isEmpty = true then s.message_queue
          else s.message_queue.tail)
      else s.message_queue) ++ [msg] ∧
    ((s.add_new_message msg).1).depth = s.depth := by
  constructor
  · by_cases hc : s.depth ≤ s.message_queue.length <;>
      simp [rmw_subscription_data_t.add_new_message, hc]
  · simp [rmw_subscription_data_t.add_new_message]

/-- Iterated `add_new_message` from any in-bound queue keeps exactly the
most recent messages: the resulting queue is the pushed history with its
overflow prefix dropped. -/
theorem add_new_messages_queue_drop {M : Type} :
    ∀ (msgs : List M) (s : rmw_subscription_data_t M), 1 ≤ s.depth →
      s.message_queue.length ≤ s.depth →
      (s.add_new_messages msgs).message_queue =
        (s.message_queue ++ msgs).drop
          (s.message_queue.length + msgs.length - s.depth) ∧
      (s.add_new_messages msgs).depth = s.depth
  | [], s, _, hlen => by
    constructor
    · simp [rmw_subscription_data_t.add_new_messages,
        Nat.sub_eq_zero_of_le hlen]
    · simp [rmw_subscription_data_t.add_new_messages]
  | msg :: rest, s, hdep, hlen => by
    obtain ⟨hq, hd⟩ := add_new_message_queue_depth s msg
    have hstep : s.add_new_messages (msg :: rest) =
        ((s.add_new_message msg).1).add_new_messages rest := rfl
    by_cases hfull : s.depth ≤ s.message_queue.length
    · have hlen_eq : s.message_queue.length = s.depth :=
        Nat.le_antisymm hlen hfull
      cases hqe : s.message_queue with
      | nil =>
        exfalso
        rw [hqe] at hlen_eq
        simp at hlen_eq
        omega
      | cons a t =>
        have htl : t.length + 1 = s.depth := by
          rw [hqe] at hlen_eq
          simpa using hlen_eq
        have hq' : ((s.add_new_message msg).1).message_queue = t ++ [msg] := by
          rw [hq, if_pos hfull, hqe]
          simp
        have hlen' : ((s.add_new_message msg).1).message_queue.length ≤
            ((s.add_new_message msg).1).depth := by
          rw [hq', hd]
          simp
          omega
        obtain ⟨ih1, ih2⟩ := add_new_messages_queue_drop rest
          ((s.add_new_message msg).1) (by rw [hd]; exact hdep) hlen'
        constructor
        · rw [hstep, ih1, hq', hd]
          have h1 : (t ++ [msg]).length + rest.length - s.depth
              = rest.length := by
            simp
            omega
          have h2 : (a :: t).length + (msg :: rest).length - s.depth
              = rest.length + 1 := by
            simp
            omega
          rw [h1, h2, List.cons_append, List.drop_succ_cons]
          congr 1
          simp
        · rw [hstep, ih2, hd]
    · have hq' : ((s.add_new_message msg).1).message_queue =
          s.message_queue ++ [msg] := by
        rw [hq, if_neg hfull]
      have hlen' : ((s.add_new_message msg).1).message_queue.length ≤
          ((s.add_new_message msg).1).depth := by
        rw [hq', hd]
        simp
        omega
      obtain ⟨ih1, ih2⟩ := add_new_messages_queue_drop rest
        ((s.add_new_message msg).1) (by rw [hd]; exact hdep) hlen'
      constructor
      · rw [hstep, ih1, hq', hd]
        have h1 : (s.message_queue ++ [msg]).length + rest.length - s.depth
            = s.message_queue.length + (msg :: rest).length - s.depth := by
          simp
          omega
        rw [h1]
        congr 1
        simp
      · rw [hstep, ih2, hd]

/-- C1: on a subscription with configured depth `D ≥ 1` and an initially
empty queue, after pushing the `N` messages of `msgs` via
`add_new_message` the queue holds exactly `min N D` elements, namely the
`D` most-recently-pushed messages in FIFO order (`msgs` with its
`N − D`-element prefix dropped); moreover whenever a push finds the
queue at length ≥ depth (depth ≥ 1) the head element is evicted before
the new message is appended at the tail, and every push appends its
message at the tail (the push is total — it never fails). -/
theorem message_queue_bounded_fifo {M : Type} (s : rmw_subscription_data_t M)
    (msgs : List M) (hdep : 1 ≤ s.depth) (hq : s.message_queue = []) :
    (s.add_new_messages msgs).message_queue
        = msgs.drop (msgs.length - s.depth) ∧
    (s.add_new_messages msgs).message_queue.length
        = min msgs.length s.depth ∧
    (∀ (t : rmw_subscription_data_t M) (m : M), 1 ≤ t.depth →
      t.depth ≤ t.message_queue.length →
      ((t.add_new_message m).1).message_queue
        = t.message_queue.tail ++ [m]) ∧
    (∀ (t : rmw_subscription_data_t M) (m : M), ∃ pre : List M,
      ((t.add_new_message m).1).message_queue = pre ++ [m]) := by
  have hmain := add_new_messages_queue_drop msgs s hdep
    (by rw [hq]; simp)
  have h1 : (s.add_new_messages msgs).message_queue
      = msgs.drop (msgs.length - s.depth) := by
    rw [hmain.1, hq]
    simp
  refine ⟨h1, ?_, ?_, ?_⟩
  · rw [h1, List.length_drop]
    omega
  · intro t m htdep htfull
    have hne : t.message_queue.isEmpty = false := by
      cases hqe : t.message_queue with
      | nil =>
        exfalso
        rw [hqe] at htfull
        simp at htfull
        omega
      | cons a u => simp
    rw [(add_new_message_queue_depth t m).1, if_pos htfull, hne]
    simp
  · intro t m
    exact ⟨_, (add_new_message_queue_depth t m).1⟩

/-- A concrete depth-2 subscription with an empty queue. -/
def emptySub2 : rmw_subscription_data_t Nat :=
  { message_queue := [], depth := 2, callback := none, user_data := none,
    unread_count := 0, condition := none }

/-- C1 witness: pushing 1, 2, 3 onto a depth-2 queue leaves [2, 3]. -/
theorem message_queue_bounded_fifo_witness :
    (emptySub2.add_new_messages [1, 2, 3]).message_queue = [2, 3] ∧
    (emptySub2.add_new_messages [1, 2, 3]).message_queue.length = 2 :=
  have h := message_queue_bounded_fifo emptySub2 [1, 2, 3]
    (by decide) (by decide)
  ⟨h.1.trans (by decide), (h.2.1).trans (by decide)⟩

/-- A concrete depth-1 subscription already holding one message — the
failing input of the end-to-end depth-1 eviction scenario. -/
def fullSub1 : rmw_subscription_data_t Nat :=
  { message_queue := [1], depth := 1, callback := none, user_data := none,
    unread_count := 0, condition := none }

/-- C9: evaluating the code at the failing input.  Pushing a second
message onto a depth-1 subscription holding one message evicts the old
message and stores the new one, emitting exactly one diagnostic — but
that diagnostic comes from `RCUTILS_LOG_DEBUG_NAMED`, i.e. it is
debug-level, not the warning level stated by the spec and by the code's
own comment ("Log warning if message is discarded"). -/
theorem eviction_diagnostic_is_debug_level :
    ((fullSub1.add_new_message 2).2).logs = [LogLevel.debug] ∧
    LogLevel.debug ≠ LogLevel.warn ∧
    ((fullSub1.add_new_message 2).1).message_queue = [2] := by
  decide

/-- After `n` calls to `get_next_sequence_number` from an in-range
counter value, the stored 64-bit counter equals the initial value plus
`n`, reduced modulo `2 ^ 64`. -/
theorem after_calls_sequence_number {R : Type} (s : rmw_client_data_t R)
    (hs : s.sequence_number < SIZE_T_MOD) :
    ∀ n : Nat, (s.after_calls n).sequence_number
      = (s.sequence_number + n) % SIZE_T_MOD
  | 0 => by
    simp [rmw_client_data_t.after_calls, Nat.mod_eq_of_lt hs]
  | n + 1 => by
    have ih := after_calls_sequence_number s hs n
    show (((s.after_calls n)).get_next_sequence_number).1.sequence_number
      = (s.sequence_number + (n + 1)) % SIZE_T_MOD
    simp only [rmw_client_data_t.get_next_sequence_number, ih,
      Nat.mod_add_mod]
    congr 1

/-- C6 counterexample: the sequence counter is a 64-bit `size_t`, so the
values it issues do repeat across enough calls — call number `2 ^ 64`
(0-indexed) returns 0, the same value the very first call returned,
refuting "strictly increasing and never repeat across any number of
calls". -/
theorem sequence_number_repeats_after_wrap :
    initial_client.sequence_number_of_call (2 ^ 64)
        = initial_client.sequence_number_of_call 0 ∧
    initial_client.sequence_number_of_call 0 = 0 := by
  have hval : ∀ k : Nat, initial_client.sequence_number_of_call k
      = (initial_client.after_calls k).sequence_number := fun _ => rfl
  have h0 := after_calls_sequence_number initial_client (by decide) 0
  have h1 := after_calls_sequence_number initial_client (by decide) (2 ^ 64)
  constructor
  · rw [hval, hval, h0, h1]
    show (0 + 2 ^ 64) % SIZE_T_MOD = (0 + 0) % SIZE_T_MOD
    simp [SIZE_T_MOD]
  · rw [hval, h0]
    show (0 + 0) % SIZE_T_MOD = 0
    simp

/-- C6 (amended): before the 64-bit counter wraps — that is, within the
first `2 ^ 64` calls — call number `n` (0-indexed) on a fresh client
returns exactly `n`: the first call returns 0, the n-th call returns
n − 1, and the issued numbers are strictly increasing and never
repeat. -/
theorem sequence_numbers_increase_before_wrap (n i j : Nat)
    (hn : n < SIZE_T_MOD) (hij : i < j) (hj : j < SIZE_T_MOD) :
    initial_client.sequence_number_of_call n = n ∧
    initial_client.sequence_number_of_call i
        < initial_client.sequence_number_of_call j := by
  have key : ∀ k, k < SIZE_T_MOD →
      initial_client.sequence_number_of_call k = k := by
    intro k hk
    show (initial_client.after_calls k).sequence_number = k
    rw [after_calls_sequence_number initial_client (by decide) k]
    show (0 + k) % SIZE_T_MOD = k
    rw [Nat.zero_add]
    exact Nat.mod_eq_of_lt hk
  refine ⟨key n hn, ?_⟩
  rw [key i (lt_trans hij hj), key j hj]
  exact hij

/-- C6 witness: the sixth call returns 5, and call 1 returns less than
call 3. -/
theorem sequence_numbers_increase_before_wrap_witness :
    initial_client.sequence_number_of_call 5 = 5 ∧
    initial_client.sequence_number_of_call 1
        < initial_client.sequence_number_of_call 3 :=
  sequence_numbers_increase_before_wrap 5 1 3 (by decide) (by decide)
    (by decide)

/-- C3 witness: three unread arrivals, then a callback registration, then
one further arrival. -/
theorem callback_backlog_flush_witness :
    emptySub.add_new_messages_invocations [10, 20, 30] = [] ∧
    (emptySub.add_new_messages [10, 20, 30]).unread_count = 3 ∧
    ((emptySub.add_new_messages [10, 20, 30]).set_on_new_message_callback
        (some 2) (some 1)).2 = [Invocation.mk (some 2) 3] :=
  have h := callback_backlog_flush emptySub [10, 20, 30] 40 1 (some 2)
    (by decide) (by decide) (by decide)
  ⟨h.1, h.2.1, h.2.2.1⟩
